import Mathlib

/-!
Verification of the `AbstractProcessBuilder` startup layer of lunatic-rs
(src/src/ap/builder.rs) and of the counter example process
(src/examples/supervised_abstract_process/counter_abstract_process.rs).

The builder's three terminal operations are sequential code whose only
effects are: generating a fresh handshake tag (`Tag::new()`), reading the
caller's own handle (`Process::this()`), invoking exactly one low-level
spawn primitive, and performing one selective receive on the handshake tag.
We embed them as pure functions: each effectful collaborator becomes an
explicit parameter (the fresh tag, the caller handle, a spawn environment
giving the handle the runtime returns for the chosen primitive, and the
reply the selective receive yields), and each run is reified as a
`StartRun`: the ordered list of low-level calls performed plus the final
outcome (a returned value, the `unimplemented!` panic, or the
`unreachable!` panic).
-/

namespace Lunatic

/-- Correlation tag; process-unique token used to multiplex replies. -/
structure Tag where
  id : Nat
deriving DecidableEq

/-- Low-level process handle; carries node id and process id, mirroring
`Process::new(node_id, process_id)` in the source. -/
structure Process where
  node_id : Nat
  process_id : Nat
deriving DecidableEq

/-- Typed process reference returned by the start family
(`ProcessRef { process }` in the source). -/
structure ProcessRef where
  process : Process
deriving DecidableEq

/-- Modelled from the spec: `ProcessConfig` is defined outside src/ and is
consumed by this layer as an opaque configuration value passed by reference,
so it is modelled as an opaque identifier. -/
structure ProcessConfig where
  id : Nat
deriving DecidableEq

/-- Startup error taxonomy of the builder (`StartupError<T>`): user init
error, init panic, handshake timeout, or lost name-registration race. -/
inductive StartupError (E : Type) where
  | Custom (e : E)
  | InitPanicked
  | TimedOut
  | NameAlreadyRegistered (proc : ProcessRef)
deriving DecidableEq

/-- Modelled from the spec: `LunaticError` is defined outside src/; the
builder code only distinguishes `NameAlreadyRegistered(node_id, process_id)`
from every other runtime error, so the other variants are collapsed into an
opaque error code. -/
inductive LunaticError where
  | NameAlreadyRegistered (node_id : Nat) (process_id : Nat)
  | Error (code : Nat)
deriving DecidableEq

/-- Modelled from the spec: `MailboxError` is defined outside src/; spec
section 4.4 only requires the timed receive to distinguish the timeout from
all other failure modes, so the other variants are collapsed into an opaque
error code. -/
inductive MailboxError where
  | TimedOut
  | Other (code : Nat)
deriving DecidableEq

/-- Payload handed to every spawn primitive:
`entry_data = (this, init_tag, arg)` in the source. -/
abbrev EntryData (A : Type) := Process × Tag × A

/-- One invocation of an anonymous low-level spawn primitive, with the
arguments the source passes to it (the `lifecycles::entry::<T>` function
pointer is the same in every call and is omitted). -/
inductive SpawnPrim (α : Type) where
  | spawn_link_config_tag (config : ProcessConfig) (entry_data : α) (tag : Tag)
  | spawn_link_tag (entry_data : α) (tag : Tag)
  | spawn_node_config (node : Nat) (config : ProcessConfig) (entry_data : α)
  | spawn_node (node : Nat) (entry_data : α)
  | spawn_config (config : ProcessConfig) (entry_data : α)
  | spawn (entry_data : α)
deriving DecidableEq

/-- One invocation of a naming-aware low-level spawn primitive, as called by
`start_as`; it registers `name` atomically and can fail. -/
inductive NameSpawnPrim (α : Type) where
  | name_spawn_link_config_tag (name : String) (config : ProcessConfig) (entry_data : α) (tag : Tag)
  | name_spawn_link_tag (name : String) (entry_data : α) (tag : Tag)
  | name_spawn_node_config (name : String) (node : Nat) (config : ProcessConfig) (entry_data : α)
  | name_spawn_node (name : String) (node : Nat) (entry_data : α)
  | name_spawn_config (name : String) (config : ProcessConfig) (entry_data : α)
  | name_spawn (name : String) (entry_data : α)
deriving DecidableEq

/-- The payload a spawn primitive was given. -/
def SpawnPrim.payload {α : Type} : SpawnPrim α → α
  | .spawn_link_config_tag _ e _ => e
  | .spawn_link_tag e _ => e
  | .spawn_node_config _ _ e => e
  | .spawn_node _ e => e
  | .spawn_config _ e => e
  | .spawn e => e

/-- Which of the three options (linked, configured, remote) a primitive
serves, as a triple of booleans. -/
def SpawnPrim.kind {α : Type} : SpawnPrim α → Bool × Bool × Bool
  | .spawn_link_config_tag _ _ _ => (true, true, false)
  | .spawn_link_tag _ _ => (true, false, false)
  | .spawn_node_config _ _ _ => (false, true, true)
  | .spawn_node _ _ => (false, false, true)
  | .spawn_config _ _ => (false, true, false)
  | .spawn _ => (false, false, false)

/-- The payload a naming-aware spawn primitive was given. -/
def NameSpawnPrim.payload {α : Type} : NameSpawnPrim α → α
  | .name_spawn_link_config_tag _ _ e _ => e
  | .name_spawn_link_tag _ e _ => e
  | .name_spawn_node_config _ _ _ e => e
  | .name_spawn_node _ _ e => e
  | .name_spawn_config _ _ e => e
  | .name_spawn _ e => e

/-- Which of the three options (linked, configured, remote) a naming-aware
primitive serves. -/
def NameSpawnPrim.kind {α : Type} : NameSpawnPrim α → Bool × Bool × Bool
  | .name_spawn_link_config_tag _ _ _ _ => (true, true, false)
  | .name_spawn_link_tag _ _ _ => (true, false, false)
  | .name_spawn_node_config _ _ _ _ => (false, true, true)
  | .name_spawn_node _ _ _ => (false, false, true)
  | .name_spawn_config _ _ _ => (false, true, false)
  | .name_spawn _ _ => (false, false, false)

/-- The name a naming-aware spawn primitive registers. -/
def NameSpawnPrim.regName {α : Type} : NameSpawnPrim α → String
  | .name_spawn_link_config_tag n _ _ _ => n
  | .name_spawn_link_tag n _ _ => n
  | .name_spawn_node_config n _ _ _ => n
  | .name_spawn_node n _ _ => n
  | .name_spawn_config n _ _ => n
  | .name_spawn n _ => n

/-- One observable low-level call performed by a start-family operation:
an anonymous spawn, a naming-aware spawn (which is also where name
registration happens), or a selective receive on a handshake tag. -/
inductive StartEvent (A : Type) where
  | spawnCall (p : SpawnPrim (EntryData A))
  | nameSpawnCall (p : NameSpawnPrim (EntryData A))
  | tagWait (t : Tag)
deriving DecidableEq

/-- Final outcome of a start-family operation: the `unimplemented!` panic of
the linked-plus-remote arm, the `unreachable!` panic of a protocol-invariant
violation, or an ordinary returned `Result`. -/
inductive StartOutcome (E : Type) where
  | panicUnsupported
  | panicUnreachable
  | returned (r : Except (StartupError E) ProcessRef)

/-- A run of a start-family operation: the low-level calls it performed, in
order, and its outcome. -/
structure StartRun (A E : Type) where
  events : List (StartEvent A)
  result : StartOutcome E

/-- Builder state: optional link tag, optional configuration, optional
target node (the `PhantomData` type marker is erased). -/
structure AbstractProcessBuilder where
  link : Option Tag
  config : Option ProcessConfig
  node : Option Nat
deriving DecidableEq

namespace AbstractProcessBuilder

/-- Fresh builder with no options set (`AbstractProcessBuilder::new`). -/
def new : AbstractProcessBuilder := ⟨none, none, none⟩

/-- Models `link()`: sets the link option to a fresh tag; the fresh tag
produced by the effectful `Tag::new()` is passed explicitly. -/
def link_fresh (b : AbstractProcessBuilder) (fresh : Tag) : AbstractProcessBuilder :=
  ⟨some fresh, b.config, b.node⟩

/-- Models `link_with(tag)`: sets the link option to the given tag. -/
def link_with (b : AbstractProcessBuilder) (tag : Tag) : AbstractProcessBuilder :=
  ⟨some tag, b.config, b.node⟩

/-- Models `configure(config)`: sets the configuration option. -/
def configure (b : AbstractProcessBuilder) (config : ProcessConfig) : AbstractProcessBuilder :=
  ⟨b.link, some config, b.node⟩

/-- Models `on_node(node)`: sets the target node option. -/
def on_node (b : AbstractProcessBuilder) (node : Nat) : AbstractProcessBuilder :=
  ⟨b.link, b.config, some node⟩

end AbstractProcessBuilder

/-- The match over `(self.link, &self.config, self.node)` shared by `start`
and `start_timeout`: `none` is the `unimplemented!` panic of the
linked-plus-remote arm, otherwise exactly one primitive is chosen and given
`entry_data`. -/
def resolveSpawn {α : Type} (link : Option Tag) (config : Option ProcessConfig)
    (node : Option Nat) (entry_data : α) : Option (SpawnPrim α) :=
  match link, config, node with
  | some _, _, some _ => none
  | some tag, some config, none => some (.spawn_link_config_tag config entry_data tag)
  | some tag, none, none => some (.spawn_link_tag entry_data tag)
  | none, some config, some node => some (.spawn_node_config node config entry_data)
  | none, none, some node => some (.spawn_node node entry_data)
  | none, some config, none => some (.spawn_config config entry_data)
  | none, none, none => some (.spawn entry_data)

/-- The corresponding match in `start_as`, selecting the naming-aware
primitive and threading the (already transformed) name through it. -/
def resolveNameSpawn {α : Type} (name : String) (link : Option Tag)
    (config : Option ProcessConfig) (node : Option Nat) (entry_data : α) :
    Option (NameSpawnPrim α) :=
  match link, config, node with
  | some _, _, some _ => none
  | some tag, some config, none => some (.name_spawn_link_config_tag name config entry_data tag)
  | some tag, none, none => some (.name_spawn_link_tag name entry_data tag)
  | none, some config, some node => some (.name_spawn_node_config name node config entry_data)
  | none, none, some node => some (.name_spawn_node name node entry_data)
  | none, some config, none => some (.name_spawn_config name config entry_data)
  | none, none, none => some (.name_spawn name entry_data)

namespace AbstractProcessBuilder

/-- Embedding of `start(&self, arg)`. `caller` is `Process::this()`,
`init_tag` the fresh `Tag::new()`, `spawnEnv` the handle the runtime returns
for the chosen primitive, and `reply` the message the selective receive
`mailbox.tag_receive(&[init_tag])` yields. -/
def start {A E : Type} (b : AbstractProcessBuilder) (caller : Process)
    (init_tag : Tag) (arg : A) (spawnEnv : SpawnPrim (EntryData A) → Process)
    (reply : Except (StartupError E) Unit) : StartRun A E :=
  let entry_data : EntryData A := (caller, init_tag, arg)
  match resolveSpawn b.link b.config b.node entry_data with
  | none => ⟨[], .panicUnsupported⟩
  | some prim =>
    let process := spawnEnv prim
    match reply with
    | .ok _ => ⟨[.spawnCall prim, .tagWait init_tag], .returned (.ok ⟨process⟩)⟩
    | .error err => ⟨[.spawnCall prim, .tagWait init_tag], .returned (.error err)⟩

/-- Embedding of `start_timeout(&self, arg, timeout)`. `recv` is the result
of `mailbox.tag_receive_timeout(&[init_tag], timeout)`: either a received
message or a mailbox failure. -/
def start_timeout {A E : Type} (b : AbstractProcessBuilder) (caller : Process)
    (init_tag : Tag) (arg : A) (spawnEnv : SpawnPrim (EntryData A) → Process)
    (recv : Except MailboxError (Except (StartupError E) Unit)) : StartRun A E :=
  let entry_data : EntryData A := (caller, init_tag, arg)
  match resolveSpawn b.link b.config b.node entry_data with
  | none => ⟨[], .panicUnsupported⟩
  | some prim =>
    let process := spawnEnv prim
    match recv with
    | .ok m =>
      match m with
      | .ok _ => ⟨[.spawnCall prim, .tagWait init_tag], .returned (.ok ⟨process⟩)⟩
      | .error err => ⟨[.spawnCall prim, .tagWait init_tag], .returned (.error err)⟩
    | .error err =>
      match err with
      | .TimedOut => ⟨[.spawnCall prim, .tagWait init_tag], .returned (.error .TimedOut)⟩
      | .Other _ => ⟨[.spawnCall prim, .tagWait init_tag], .panicUnreachable⟩

/-- Embedding of `start_as(&self, name, arg)`. `pn` models the
`process_name::<T, T::Serializer>(ProcessType::ProcessRef, ·)` name
transformation (defined outside src/, so kept abstract as a parameter);
`nameEnv` gives the runtime's answer for the chosen naming-aware primitive:
a handle, or a `LunaticError`. -/
def start_as {A E : Type} (b : AbstractProcessBuilder) (name : String)
    (pn : String → String) (caller : Process) (init_tag : Tag) (arg : A)
    (nameEnv : NameSpawnPrim (EntryData A) → Except LunaticError Process)
    (reply : Except (StartupError E) Unit) : StartRun A E :=
  let entry_data : EntryData A := (caller, init_tag, arg)
  match resolveNameSpawn (pn name) b.link b.config b.node entry_data with
  | none => ⟨[], .panicUnsupported⟩
  | some prim =>
    match nameEnv prim with
    | .ok process =>
      match reply with
      | .ok _ => ⟨[.nameSpawnCall prim, .tagWait init_tag], .returned (.ok ⟨process⟩)⟩
      | .error err => ⟨[.nameSpawnCall prim, .tagWait init_tag], .returned (.error err)⟩
    | .error (.NameAlreadyRegistered node_id process_id) =>
      ⟨[.nameSpawnCall prim],
        .returned (.error (.NameAlreadyRegistered ⟨⟨node_id, process_id⟩⟩))⟩
    | .error (.Error _) => ⟨[.nameSpawnCall prim], .panicUnreachable⟩

end AbstractProcessBuilder

/-- Modulus of `u32` arithmetic. -/
def u32Mod : Nat := 4294967296

/-- The example counter process state: `pub struct Counter(u32)`; the `u32`
field is modelled as a natural number reduced mod 2^32 where arithmetic can
overflow. -/
structure Counter where
  val : Nat
deriving DecidableEq

/-- Embedding of `fn init(_: ProcessRef<Self>, start: u32) -> Self`. -/
def Counter.init (_ : ProcessRef) (start : Nat) : Counter := ⟨start⟩

/-- Embedding of the message handler `fn increment(&mut self)`, whose body is
`self.0 += 1` on a `u32`; wrapping is modelled by reduction mod 2^32. -/
def Counter.increment (c : Counter) : Counter := ⟨(c.val + 1) % u32Mod⟩

/-- Embedding of the request handler `fn count(&self) -> u32`. -/
def Counter.count (c : Counter) : Nat := c.val

/-! ### Helper lemmas -/

/-- When the spawn dispatch resolves to a primitive, `start` performs exactly
that spawn call followed by the wait on the handshake tag. -/
theorem start_events_of_resolve {A E : Type} (b : AbstractProcessBuilder)
    (caller : Process) (init_tag : Tag) (arg : A)
    (spawnEnv : SpawnPrim (EntryData A) → Process)
    (reply : Except (StartupError E) Unit) (p : SpawnPrim (EntryData A))
    (hres : resolveSpawn b.link b.config b.node (caller, init_tag, arg) = some p) :
    (b.start caller init_tag arg spawnEnv reply).events
      = [.spawnCall p, .tagWait init_tag] := by
  rcases reply with u | e <;>
    simp [AbstractProcessBuilder.start, hres]

/-- When the spawn dispatch resolves to a primitive, `start_timeout` performs
exactly that spawn call followed by the wait on the handshake tag. -/
theorem start_timeout_events_of_resolve {A E : Type} (b : AbstractProcessBuilder)
    (caller : Process) (init_tag : Tag) (arg : A)
    (spawnEnv : SpawnPrim (EntryData A) → Process)
    (recv : Except MailboxError (Except (StartupError E) Unit))
    (p : SpawnPrim (EntryData A))
    (hres : resolveSpawn b.link b.config b.node (caller, init_tag, arg) = some p) :
    (b.start_timeout caller init_tag arg spawnEnv recv).events
      = [.spawnCall p, .tagWait init_tag] := by
  rcases recv with m | e
  · rcases m with u | e <;> simp [AbstractProcessBuilder.start_timeout, hres]
  · rcases e with _ | code <;> simp [AbstractProcessBuilder.start_timeout, hres]

/-! ### Claim theorems -/

/-- C1: for every builder with both the link option and the node option set,
each of `start`, `start_timeout` and `start_as` fails immediately with the
declared-unsupported panic, performing no spawn call, no handshake tag wait
and no name registration. -/
theorem unsupported_combination_fails_fast {A E : Type} (b : AbstractProcessBuilder)
    (t : Tag) (n : Nat) (hl : b.link = some t) (hn : b.node = some n)
    (caller : Process) (init_tag : Tag) (arg : A)
    (spawnEnv : SpawnPrim (EntryData A) → Process)
    (reply : Except (StartupError E) Unit)
    (recv : Except MailboxError (Except (StartupError E) Unit))
    (name : String) (pn : String → String)
    (nameEnv : NameSpawnPrim (EntryData A) → Except LunaticError Process) :
    b.start caller init_tag arg spawnEnv reply = ⟨[], .panicUnsupported⟩
    ∧ b.start_timeout caller init_tag arg spawnEnv recv = ⟨[], .panicUnsupported⟩
    ∧ b.start_as name pn caller init_tag arg nameEnv reply = ⟨[], .panicUnsupported⟩ := by
  obtain ⟨l, c, nd⟩ := b
  cases hl
  cases hn
  cases c <;>
    simp [AbstractProcessBuilder.start, AbstractProcessBuilder.start_timeout,
      AbstractProcessBuilder.start_as, resolveSpawn, resolveNameSpawn]

/-- Witness for C1: the spec scenario `on_node(7)` combined with `link()`. -/
theorem unsupported_combination_fails_fast_witness :
    AbstractProcessBuilder.start (AbstractProcessBuilder.new.on_node 7 |>.link_fresh ⟨1⟩)
        ⟨0, 1⟩ ⟨5⟩ (42 : Nat) (fun _ => ⟨0, 2⟩)
        (Except.ok () : Except (StartupError Nat) Unit) = ⟨[], .panicUnsupported⟩
    ∧ AbstractProcessBuilder.start_timeout (AbstractProcessBuilder.new.on_node 7 |>.link_fresh ⟨1⟩)
        ⟨0, 1⟩ ⟨5⟩ (42 : Nat) (fun _ => ⟨0, 2⟩)
        (Except.error MailboxError.TimedOut
          : Except MailboxError (Except (StartupError Nat) Unit)) = ⟨[], .panicUnsupported⟩
    ∧ AbstractProcessBuilder.start_as (AbstractProcessBuilder.new.on_node 7 |>.link_fresh ⟨1⟩)
        "counter" id ⟨0, 1⟩ ⟨5⟩ (42 : Nat) (fun _ => Except.ok ⟨0, 3⟩)
        (Except.ok () : Except (StartupError Nat) Unit) = ⟨[], .panicUnsupported⟩ :=
  unsupported_combination_fails_fast (AbstractProcessBuilder.new.on_node 7 |>.link_fresh ⟨1⟩)
    ⟨1⟩ 7 rfl rfl ⟨0, 1⟩ ⟨5⟩ 42 (fun _ => ⟨0, 2⟩) (Except.ok ())
    (Except.error MailboxError.TimedOut) "counter" id (fun _ => Except.ok ⟨0, 3⟩)

/-- C6: when the timed receive yields a message `m` before the deadline,
`start_timeout` performs the same calls and returns the same result as
`start` would for the same reply `m`; the two differ only on the timeout
path. -/
theorem start_timeout_agrees_with_start {A E : Type} (b : AbstractProcessBuilder)
    (caller : Process) (init_tag : Tag) (arg : A)
    (spawnEnv : SpawnPrim (EntryData A) → Process)
    (m : Except (StartupError E) Unit) :
    b.start_timeout caller init_tag arg spawnEnv (Except.ok m)
      = b.start caller init_tag arg spawnEnv m := by
  obtain ⟨l, c, nd⟩ := b
  cases l <;> cases c <;> cases nd <;> rcases m with u | e <;>
    simp [AbstractProcessBuilder.start, AbstractProcessBuilder.start_timeout,
      resolveSpawn]

/-- C7: each builder option method is pure: it returns a new builder with
exactly the targeted field set and the other two fields carried over
unchanged (mutation of the receiver is impossible in this embedding; the
equations show the exact frame). -/
theorem builder_options_pure_frame (b : AbstractProcessBuilder) (fresh tag : Tag)
    (config : ProcessConfig) (node : Nat) :
    b.link_fresh fresh = ⟨some fresh, b.config, b.node⟩
    ∧ b.link_with tag = ⟨some tag, b.config, b.node⟩
    ∧ b.configure config = ⟨b.link, some config, b.node⟩
    ∧ b.on_node node = ⟨b.link, b.config, some node⟩ :=
  ⟨rfl, rfl, rfl, rfl⟩

/-- C2: for every supported option combination, `start` returns `Ok` exactly
when the init reply on the handshake tag is `Ok(())`, and a reply carrying an
error is returned unchanged. -/
theorem start_propagates_init_reply {A E : Type} (b : AbstractProcessBuilder)
    (hsup : ¬ (b.link.isSome = true ∧ b.node.isSome = true))
    (caller : Process) (init_tag : Tag) (arg : A)
    (spawnEnv : SpawnPrim (EntryData A) → Process)
    (reply : Except (StartupError E) Unit) :
    ((∃ h, (b.start caller init_tag arg spawnEnv reply).result
        = .returned (.ok h)) ↔ reply = .ok ())
    ∧ ∀ e, reply = .error e →
        (b.start caller init_tag arg spawnEnv reply).result
          = .returned (.error e) := by
  obtain ⟨l, c, nd⟩ := b
  rcases reply with e | u
  · cases l <;> cases c <;> cases nd <;>
      simp_all [AbstractProcessBuilder.start, resolveSpawn]
  · cases u
    cases l <;> cases c <;> cases nd <;>
      simp_all [AbstractProcessBuilder.start, resolveSpawn]

/-- Witness for C2: an unlinked local default-config start whose init reply
carries the user error 7 returns exactly `Custom 7`. -/
theorem start_propagates_init_reply_witness :
    (AbstractProcessBuilder.start AbstractProcessBuilder.new ⟨0, 1⟩ ⟨5⟩ (42 : Nat)
        (fun _ => ⟨0, 2⟩)
        (Except.error (StartupError.Custom (7 : Nat)))).result
      = .returned (.error (StartupError.Custom 7)) :=
  (start_propagates_init_reply AbstractProcessBuilder.new (by simp [AbstractProcessBuilder.new])
      ⟨0, 1⟩ ⟨5⟩ 42 (fun _ => ⟨0, 2⟩)
      (Except.error (StartupError.Custom 7))).2 (StartupError.Custom 7) rfl

/-- C3: for every supported option combination, a timed receive failing with
the timeout error makes `start_timeout` return `TimedOut`, while any other
receive failure hits the `unreachable!` fatal assertion rather than being
returned as an error value. -/
theorem start_timeout_receive_failure {A E : Type} (b : AbstractProcessBuilder)
    (hsup : ¬ (b.link.isSome = true ∧ b.node.isSome = true))
    (caller : Process) (init_tag : Tag) (arg : A)
    (spawnEnv : SpawnPrim (EntryData A) → Process) :
    (b.start_timeout caller init_tag arg spawnEnv
        (Except.error MailboxError.TimedOut
          : Except MailboxError (Except (StartupError E) Unit))).result
      = .returned (.error .TimedOut)
    ∧ ∀ code, (b.start_timeout caller init_tag arg spawnEnv
        (Except.error (MailboxError.Other code)
          : Except MailboxError (Except (StartupError E) Unit))).result
      = .panicUnreachable := by
  obtain ⟨l, c, nd⟩ := b
  cases l <;> cases c <;> cases nd <;>
    simp_all [AbstractProcessBuilder.start_timeout, resolveSpawn]

/-- Witness for C3: a default unlinked local start_timeout whose receive
times out returns `TimedOut`, and one whose receive fails otherwise panics
on the unreachable branch. -/
theorem start_timeout_receive_failure_witness :
    (AbstractProcessBuilder.start_timeout AbstractProcessBuilder.new ⟨0, 1⟩ ⟨5⟩ (42 : Nat)
        (fun _ => ⟨0, 2⟩)
        (Except.error MailboxError.TimedOut
          : Except MailboxError (Except (StartupError Nat) Unit))).result
      = .returned (.error .TimedOut)
    ∧ (AbstractProcessBuilder.start_timeout AbstractProcessBuilder.new ⟨0, 1⟩ ⟨5⟩ (42 : Nat)
        (fun _ => ⟨0, 2⟩)
        (Except.error (MailboxError.Other 3)
          : Except MailboxError (Except (StartupError Nat) Unit))).result
      = .panicUnreachable :=
  ⟨(start_timeout_receive_failure AbstractProcessBuilder.new
      (by simp [AbstractProcessBuilder.new]) ⟨0, 1⟩ ⟨5⟩ 42 (fun _ => ⟨0, 2⟩)).1,
    (start_timeout_receive_failure AbstractProcessBuilder.new
      (by simp [AbstractProcessBuilder.new]) ⟨0, 1⟩ ⟨5⟩ 42 (fun _ => ⟨0, 2⟩)).2 3⟩

/-- C4: when the naming-aware spawn reports that the name is already
registered by a process with ids `(node_id, process_id)`, `start_as` returns
`NameAlreadyRegistered` carrying a handle built from exactly those ids, and
it performs no wait on the handshake tag. -/
theorem start_as_returns_existing_holder {A E : Type} (b : AbstractProcessBuilder)
    (name : String) (pn : String → String) (caller : Process) (init_tag : Tag)
    (arg : A) (nameEnv : NameSpawnPrim (EntryData A) → Except LunaticError Process)
    (reply : Except (StartupError E) Unit) (prim : NameSpawnPrim (EntryData A))
    (node_id process_id : Nat)
    (hres : resolveNameSpawn (pn name) b.link b.config b.node
        (caller, init_tag, arg) = some prim)
    (henv : nameEnv prim = .error (.NameAlreadyRegistered node_id process_id)) :
    (b.start_as name pn caller init_tag arg nameEnv reply).result
      = .returned (.error (.NameAlreadyRegistered ⟨⟨node_id, process_id⟩⟩))
    ∧ ∀ t, StartEvent.tagWait t ∉
        (b.start_as name pn caller init_tag arg nameEnv reply).events := by
  constructor
  · simp [AbstractProcessBuilder.start_as, hres, henv]
  · intro t
    simp [AbstractProcessBuilder.start_as, hres, henv]

/-- Witness for C4: a lost registration race against the holder with node id
9 and process id 10 returns a handle to that holder without any tag wait. -/
theorem start_as_returns_existing_holder_witness :
    (AbstractProcessBuilder.start_as AbstractProcessBuilder.new "counter" id ⟨0, 1⟩ ⟨5⟩
        (42 : Nat) (fun _ => Except.error (.NameAlreadyRegistered 9 10))
        (Except.ok () : Except (StartupError Nat) Unit)).result
      = .returned (.error (.NameAlreadyRegistered ⟨⟨9, 10⟩⟩))
    ∧ StartEvent.tagWait ⟨5⟩ ∉
        (AbstractProcessBuilder.start_as AbstractProcessBuilder.new "counter" id ⟨0, 1⟩ ⟨5⟩
          (42 : Nat) (fun _ => Except.error (.NameAlreadyRegistered 9 10))
          (Except.ok () : Except (StartupError Nat) Unit)).events :=
  ⟨(start_as_returns_existing_holder AbstractProcessBuilder.new "counter" id ⟨0, 1⟩ ⟨5⟩
      42 (fun _ => Except.error (.NameAlreadyRegistered 9 10)) (Except.ok ())
      (.name_spawn "counter" (⟨0, 1⟩, ⟨5⟩, 42)) 9 10 rfl rfl).1,
    (start_as_returns_existing_holder AbstractProcessBuilder.new "counter" id ⟨0, 1⟩ ⟨5⟩
      42 (fun _ => Except.error (.NameAlreadyRegistered 9 10)) (Except.ok ())
      (.name_spawn "counter" (⟨0, 1⟩, ⟨5⟩, 42)) 9 10 rfl rfl).2 ⟨5⟩⟩

/-- C5: every supported option combination resolves to exactly one low-level
spawn primitive whose option kind matches the presence of the three options
and whose payload is the 3-tuple (caller handle, handshake tag, user
argument); `start` and `start_timeout` perform exactly that call followed by
the tag wait, and `start_as` resolves the naming-aware primitive of the same
kind and payload, threading the transformed name through it. -/
theorem six_combination_dispatch {A E : Type} (b : AbstractProcessBuilder)
    (hsup : ¬ (b.link.isSome = true ∧ b.node.isSome = true))
    (caller : Process) (init_tag : Tag) (arg : A)
    (spawnEnv : SpawnPrim (EntryData A) → Process)
    (reply : Except (StartupError E) Unit)
    (recv : Except MailboxError (Except (StartupError E) Unit))
    (name : String) (pn : String → String) :
    ∃ p q,
      resolveSpawn b.link b.config b.node (caller, init_tag, arg) = some p
      ∧ p.payload = (caller, init_tag, arg)
      ∧ p.kind = (b.link.isSome, b.config.isSome, b.node.isSome)
      ∧ (b.start caller init_tag arg spawnEnv reply).events
          = [.spawnCall p, .tagWait init_tag]
      ∧ (b.start_timeout caller init_tag arg spawnEnv recv).events
          = [.spawnCall p, .tagWait init_tag]
      ∧ resolveNameSpawn (pn name) b.link b.config b.node (caller, init_tag, arg) = some q
      ∧ q.payload = (caller, init_tag, arg)
      ∧ q.kind = (b.link.isSome, b.config.isSome, b.node.isSome)
      ∧ q.regName = pn name := by
  obtain ⟨l, c, nd⟩ := b
  cases l <;> cases c <;> cases nd
  · exact ⟨_, _, rfl, rfl, rfl,
      start_events_of_resolve _ caller init_tag arg spawnEnv reply _ rfl,
      start_timeout_events_of_resolve _ caller init_tag arg spawnEnv recv _ rfl,
      rfl, rfl, rfl, rfl⟩
  · exact ⟨_, _, rfl, rfl, rfl,
      start_events_of_resolve _ caller init_tag arg spawnEnv reply _ rfl,
      start_timeout_events_of_resolve _ caller init_tag arg spawnEnv recv _ rfl,
      rfl, rfl, rfl, rfl⟩
  · exact ⟨_, _, rfl, rfl, rfl,
      start_events_of_resolve _ caller init_tag arg spawnEnv reply _ rfl,
      start_timeout_events_of_resolve _ caller init_tag arg spawnEnv recv _ rfl,
      rfl, rfl, rfl, rfl⟩
  · exact ⟨_, _, rfl, rfl, rfl,
      start_events_of_resolve _ caller init_tag arg spawnEnv reply _ rfl,
      start_timeout_events_of_resolve _ caller init_tag arg spawnEnv recv _ rfl,
      rfl, rfl, rfl, rfl⟩
  · exact ⟨_, _, rfl, rfl, rfl,
      start_events_of_resolve _ caller init_tag arg spawnEnv reply _ rfl,
      start_timeout_events_of_resolve _ caller init_tag arg spawnEnv recv _ rfl,
      rfl, rfl, rfl, rfl⟩
  · exact absurd ⟨rfl, rfl⟩ hsup
  · exact ⟨_, _, rfl, rfl, rfl,
      start_events_of_resolve _ caller init_tag arg spawnEnv reply _ rfl,
      start_timeout_events_of_resolve _ caller init_tag arg spawnEnv recv _ rfl,
      rfl, rfl, rfl, rfl⟩
  · exact absurd ⟨rfl, rfl⟩ hsup

/-- Witness for C5: the dispatch of a fresh builder with no options set. -/
theorem six_combination_dispatch_witness :
    ∃ (p : SpawnPrim (EntryData Nat)) (q : NameSpawnPrim (EntryData Nat)),
      resolveSpawn AbstractProcessBuilder.new.link AbstractProcessBuilder.new.config
          AbstractProcessBuilder.new.node (⟨0, 1⟩, ⟨5⟩, (42 : Nat)) = some p
      ∧ p.payload = (⟨0, 1⟩, ⟨5⟩, (42 : Nat))
      ∧ p.kind = (AbstractProcessBuilder.new.link.isSome,
          AbstractProcessBuilder.new.config.isSome, AbstractProcessBuilder.new.node.isSome)
      ∧ (AbstractProcessBuilder.new.start ⟨0, 1⟩ ⟨5⟩ (42 : Nat) (fun _ => ⟨0, 2⟩)
          (Except.ok () : Except (StartupError Nat) Unit)).events
          = [.spawnCall p, .tagWait ⟨5⟩]
      ∧ (AbstractProcessBuilder.new.start_timeout ⟨0, 1⟩ ⟨5⟩ (42 : Nat) (fun _ => ⟨0, 2⟩)
          (Except.error MailboxError.TimedOut
            : Except MailboxError (Except (StartupError Nat) Unit))).events
          = [.spawnCall p, .tagWait ⟨5⟩]
      ∧ resolveNameSpawn (id "counter") AbstractProcessBuilder.new.link
          AbstractProcessBuilder.new.config AbstractProcessBuilder.new.node
          (⟨0, 1⟩, ⟨5⟩, (42 : Nat)) = some q
      ∧ q.payload = (⟨0, 1⟩, ⟨5⟩, (42 : Nat))
      ∧ q.kind = (AbstractProcessBuilder.new.link.isSome,
          AbstractProcessBuilder.new.config.isSome, AbstractProcessBuilder.new.node.isSome)
      ∧ q.regName = id "counter" :=
  six_combination_dispatch AbstractProcessBuilder.new
    (by simp [AbstractProcessBuilder.new]) ⟨0, 1⟩ ⟨5⟩ 42 (fun _ => ⟨0, 2⟩)
    (Except.ok ()) (Except.error MailboxError.TimedOut) "counter" id

/-- C9: when the dispatch of `start_as` has resolved to a primitive, a spawn
failure other than `NameAlreadyRegistered` hits the `unreachable!` abort,
while a successful spawn or a lost name race never does; the name race is
therefore the only spawn failure converted into a returned error value. -/
theorem start_as_unknown_spawn_error_unreachable {A E : Type}
    (b : AbstractProcessBuilder) (name : String) (pn : String → String)
    (caller : Process) (init_tag : Tag) (arg : A)
    (nameEnv : NameSpawnPrim (EntryData A) → Except LunaticError Process)
    (reply : Except (StartupError E) Unit) (prim : NameSpawnPrim (EntryData A))
    (hres : resolveNameSpawn (pn name) b.link b.config b.node
        (caller, init_tag, arg) = some prim) :
    (∀ code, nameEnv prim = .error (.Error code) →
        (b.start_as name pn caller init_tag arg nameEnv reply).result
          = .panicUnreachable)
    ∧ (∀ p, nameEnv prim = .ok p →
        (b.start_as name pn caller init_tag arg nameEnv reply).result
          ≠ .panicUnreachable)
    ∧ (∀ node_id process_id,
        nameEnv prim = .error (.NameAlreadyRegistered node_id process_id) →
        (b.start_as name pn caller init_tag arg nameEnv reply).result
          ≠ .panicUnreachable) := by
  refine ⟨?_, ?_, ?_⟩
  · intro code hcode
    simp [AbstractProcessBuilder.start_as, hres, hcode]
  · intro p hp
    rcases reply with e | u <;>
      simp [AbstractProcessBuilder.start_as, hres, hp]
  · intro node_id process_id hreg
    simp [AbstractProcessBuilder.start_as, hres, hreg]

/-- Witness for C9: an unknown spawn error with code 3 aborts on the
unreachable branch. -/
theorem start_as_unknown_spawn_error_unreachable_witness :
    (AbstractProcessBuilder.start_as AbstractProcessBuilder.new "counter" id ⟨0, 1⟩ ⟨5⟩
        (42 : Nat) (fun _ => Except.error (.Error 3))
        (Except.ok () : Except (StartupError Nat) Unit)).result
      = .panicUnreachable :=
  (start_as_unknown_spawn_error_unreachable AbstractProcessBuilder.new "counter" id
      ⟨0, 1⟩ ⟨5⟩ 42 (fun _ => Except.error (.Error 3)) (Except.ok ())
      (.name_spawn "counter" (⟨0, 1⟩, ⟨5⟩, 42)) rfl).1 3 rfl

/-- Counterexample to C8 as stated: at the maximal `u32` state the increment
handler does not add exactly 1 (the `u32` wraps, so the state cannot become
`u32::MAX + 1`). -/
theorem counter_increment_at_max_counterexample :
    (Counter.increment ⟨4294967295⟩).val ≠ 4294967295 + 1 := by
  decide

/-- C8 (amended): init produces `Counter start`, each increment adds exactly
1 modulo 2^32 (hence exactly 1 on every state below `u32::MAX`), count
returns the current state, and three increments from initial state 0
followed by one count reply 3. -/
theorem counter_example_scenario (r : ProcessRef) (s : Nat) (c : Counter) :
    (Counter.init r s).val = s
    ∧ (Counter.increment c).val = (c.val + 1) % u32Mod
    ∧ Counter.count c = c.val
    ∧ Counter.count (Counter.increment (Counter.increment (Counter.increment
        (Counter.init r 0)))) = 3 :=
  ⟨rfl, rfl, rfl, rfl⟩

/-- C10: the increment handler computes `(count + 1) mod 2^32`; at
`u32::MAX` it wraps to 0 rather than staying at `u32::MAX`, so the counter
is not monotone over all inputs. -/
theorem counter_increment_wraps_mod_u32 (c : Counter) :
    (Counter.increment c).val = (c.val + 1) % u32Mod
    ∧ (Counter.increment ⟨4294967295⟩).val = 0
    ∧ (Counter.increment ⟨4294967295⟩).val ≠ 4294967295
    ∧ ¬ ∀ d : Counter, d.val < (Counter.increment d).val :=
  ⟨rfl, by decide, by decide,
    fun hmono => absurd (hmono ⟨4294967295⟩) (by decide)⟩

end Lunatic
